import Mathlib

/-
Verification development for the stock-dashboard data client
(src/lib/serpapi-client.ts).

Modelling conventions:
- JavaScript numbers are modelled as exact rationals (`ℚ`).
- A possibly-`undefined` value is an `Option`; JavaScript truthiness of a
  number treats `0` as falsy and of a string treats `""` as falsy, while a
  present object is always truthy.
- Timestamps (`Date.now()`, the ISO `lastUpdated` stamp) are `Nat`
  time-units; `now - t` on `Nat` agrees with the integer difference for
  every comparison against a positive TTL bound.
- The upstream `getJson` lookup is an oracle parameter
  `Option GoogleFinanceResponse`; `none` models a lookup failure or falsy
  payload (the rejected promise), which the code catches and absorbs.
- All functions are total: the `try/catch` blocks of the source can
  therefore never be exercised by a typed input, which is exactly the
  "handled failure, never propagated" policy of the code.
-/

namespace StockDashboard

/-- Truthiness of an optional JavaScript number: `undefined` and `0` are falsy. -/
def numTruthy : Option ℚ → Bool
  | none => false
  | some x => x != 0

/-- Truthiness of an optional JavaScript string: `undefined` and `""` are falsy. -/
def strTruthy : Option String → Bool
  | none => false
  | some s => s != ""

/-- JavaScript `a || d` for an optional number `a` and a number default `d`. -/
def jsNumOr (a : Option ℚ) (d : ℚ) : ℚ :=
  if numTruthy a then a.getD d else d

/-- JavaScript `a || b` where both operands are optional numbers. -/
def jsOrOptNum (a b : Option ℚ) : Option ℚ :=
  if numTruthy a then a else b

/-- JavaScript `a || b` where both operands are optional strings. -/
def jsOrOptStr (a b : Option String) : Option String :=
  if strTruthy a then a else b

/-- Shape of `response.summary` in the upstream payload. -/
structure SummaryShape where
  price : Option ℚ
  currency : Option String
  change : Option ℚ
  change_percent : Option ℚ
deriving DecidableEq

/-- Shape of `response.knowledge_graph` in the upstream payload. -/
structure KnowledgeGraph where
  price : Option ℚ
  currency : Option String
  change : Option ℚ
  change_percent : Option ℚ
  market_cap : Option String
  pe_ratio : Option ℚ
  earnings : Option String
  revenue : Option String
deriving DecidableEq

/-- Shape of `response.financials` in the upstream payload. -/
structure Financials where
  pe_ratio : Option ℚ
  market_cap : Option String
  revenue : Option String
  net_income : Option String
deriving DecidableEq

/-- Raw upstream response: `GoogleFinanceResponse` of the source. -/
structure GoogleFinanceResponse where
  summary : Option SummaryShape
  knowledge_graph : Option KnowledgeGraph
  financials : Option Financials
deriving DecidableEq

/-- Canonical quote record: `SerpApiStockData` of the source.  The
`lastUpdated` ISO string is modelled as the `Nat` instant it stamps. -/
structure SerpApiStockData where
  symbol : String
  price : ℚ
  change : ℚ
  changePercent : ℚ
  peRatio : Option ℚ
  marketCap : Option String
  earnings : Option String
  revenue : Option String
  lastUpdated : Nat
deriving DecidableEq

/-- View of the object bound by `const data = response.knowledge_graph ||
response.summary`: reading a field the summary object does not carry
yields `undefined`. -/
structure DataShape where
  price : Option ℚ
  change : Option ℚ
  change_percent : Option ℚ
  pe_ratio : Option ℚ
  market_cap : Option String
  earnings : Option String
  revenue : Option String
deriving DecidableEq

/-- Field view of a `knowledge_graph` object. -/
def kgToData (kg : KnowledgeGraph) : DataShape :=
  { price := kg.price
    change := kg.change
    change_percent := kg.change_percent
    pe_ratio := kg.pe_ratio
    market_cap := kg.market_cap
    earnings := kg.earnings
    revenue := kg.revenue }

/-- Field view of a `summary` object: the financial fields are absent. -/
def summaryToData (s : SummaryShape) : DataShape :=
  { price := s.price
    change := s.change
    change_percent := s.change_percent
    pe_ratio := none
    market_cap := none
    earnings := none
    revenue := none }

/-- JavaScript `response.knowledge_graph || response.summary`: any present
object is truthy, so a present (even empty-valued) `knowledge_graph`
suppresses the summary entirely. -/
def dataOf (resp : GoogleFinanceResponse) : Option DataShape :=
  match resp.knowledge_graph with
  | some kg => some (kgToData kg)
  | none => resp.summary.map summaryToData

/-- Normalizer `parseGoogleFinanceResponse` of the source: `now` is the
instant stamped into `lastUpdated`. -/
def parseGoogleFinanceResponse (symbol : String) (now : Nat)
    (resp : GoogleFinanceResponse) : Option SerpApiStockData :=
  match dataOf resp with
  | none => none
  | some d =>
      some
        { symbol := symbol
          price := jsNumOr d.price 0
          change := jsNumOr d.change 0
          changePercent := jsNumOr d.change_percent 0
          peRatio := jsOrOptNum (resp.financials.bind Financials.pe_ratio) d.pe_ratio
          marketCap := jsOrOptStr (resp.financials.bind Financials.market_cap) d.market_cap
          earnings := jsOrOptStr (resp.financials.bind Financials.net_income) d.earnings
          revenue := jsOrOptStr (resp.financials.bind Financials.revenue) d.revenue
          lastUpdated := now }

/-- Cache entry: the normalized record plus its captured-at timestamp. -/
structure CacheEntry where
  data : SerpApiStockData
  timestamp : Nat
deriving DecidableEq

/-- The per-symbol cache `Map<string, {data, timestamp}>`, modelled
extensionally. -/
def Cache : Type := String → Option CacheEntry

/-- Strict TTL `CACHE_DURATION` of the source: 15 seconds in milliseconds. -/
def CACHE_DURATION : Nat := 15000

/-- Outcome of one `fetchStockData` call: the returned value, the cache
after the call, and how many upstream `getJson` lookups were performed. -/
structure FetchResult where
  result : Option SerpApiStockData
  cache : Cache
  upstreamCalls : Nat

/-- Body of the `try` block of `fetchStockData` after a cache miss.  `now`
is the value of `Date.now()` during the call and `upstream` is the oracle
for the one `getJson` lookup performed (`none` models a rejected promise or
falsy payload, which the `catch` absorbs into a `null` return). -/
def fetchFresh (c : Cache) (now : Nat) (upstream : Option GoogleFinanceResponse)
    (symbol : String) : FetchResult :=
  match upstream with
  | none => { result := none, cache := c, upstreamCalls := 1 }
  | some resp =>
      match parseGoogleFinanceResponse symbol now resp with
      | none => { result := none, cache := c, upstreamCalls := 1 }
      | some stockData =>
          { result := some stockData
            cache := fun s => if s = symbol then some ⟨stockData, now⟩ else c s
            upstreamCalls := 1 }

/-- Cache-first wrapper around `fetchFresh`, completing the source's
`fetchStockData`. -/
def fetchStockData (c : Cache) (now : Nat) (upstream : Option GoogleFinanceResponse)
    (symbol : String) : FetchResult :=
  match c symbol with
  | some cached =>
      if now - cached.timestamp < CACHE_DURATION then
        { result := some cached.data, cache := c, upstreamCalls := 0 }
      else
        fetchFresh c now upstream symbol
  | none => fetchFresh c now upstream symbol

/-- Relaxed-TTL read `getCachedData` of the source: serves an entry younger
than `CACHE_DURATION * 2`, performing no lookup and no cache write. -/
def getCachedData (c : Cache) (now : Nat) (symbol : String) : Option SerpApiStockData :=
  match c symbol with
  | some cached =>
      if now - cached.timestamp < CACHE_DURATION * 2 then some cached.data else none
  | none => none

/-- Cache clear `clearCache` of the source. -/
def clearCache (_c : Cache) : Cache := fun _ => none

/-- Batch driver `fetchMultipleStocks`, value-level view: the symbols are
processed with the cache threaded through the individual `fetchStockData`
calls, and a symbol enters the result mapping exactly when its fetch
returned a non-null record.  `up` gives the upstream oracle per symbol. -/
def fetchMultipleStocksGo (now : Nat) (up : String → Option GoogleFinanceResponse)
    (c : Cache) (results : String → Option SerpApiStockData) :
    List String → (String → Option SerpApiStockData) × Cache
  | [] => (results, c)
  | symbol :: rest =>
      match (fetchStockData c now (up symbol) symbol).result with
      | some d =>
          fetchMultipleStocksGo now up (fetchStockData c now (up symbol) symbol).cache
            (fun s => if s = symbol then some d else results s) rest
      | none =>
          fetchMultipleStocksGo now up (fetchStockData c now (up symbol) symbol).cache
            results rest

/-- Result mapping and final cache of `fetchMultipleStocks`. -/
def fetchMultipleStocks (c : Cache) (now : Nat)
    (up : String → Option GoogleFinanceResponse) (symbols : List String) :
    (String → Option SerpApiStockData) × Cache :=
  fetchMultipleStocksGo now up c (fun _ => none) symbols

/-- Partition of the input into the batches of `fetchMultipleStocks`:
slices `symbols.slice(i, i + 3)` taken in input order. -/
def chunk3 : List String → List (List String)
  | [] => []
  | a :: b :: c :: rest => [a, b, c] :: chunk3 rest
  | l => [l]

/-- Elapsed time of one batch under per-symbol fetch durations `d`: the
fetches of a batch are issued concurrently and each is followed by its own
300-unit pacing delay, so `Promise.all` resolves when the slowest
fetch-plus-delay finishes. -/
def batchElapsed (d : String → Nat) (batch : List String) : Nat :=
  (batch.map (fun s => d s + 300)).foldr max 0

/-- Total elapsed pacing of `fetchMultipleStocks`: the batch times in
sequence plus the 1000-unit delay between consecutive batches (the guard
`i + batchSize < symbols.length` skips it after the last batch). -/
def fetchMultipleStocksElapsed (d : String → Nat) (symbols : List String) : Nat :=
  ((chunk3 symbols).map (batchElapsed d)).sum + 1000 * ((chunk3 symbols).length - 1)

/-- Static base-price table of `getFallbackStockData`. -/
def basePrices : List (String × ℚ) :=
  [("HDFCBANK.NS", 1770), ("BAJFINANCE.NS", 6500), ("ICICIBANK.NS", 1200),
   ("BAJAJ-AUTO.NS", 9500), ("SAVANIFIN.NS", 180), ("AFFLE.NS", 1200),
   ("LTIM.NS", 5800), ("KPITTECH.NS", 1800), ("TATATECH.NS", 900),
   ("BLSE.NS", 90), ("TANLA.NS", 480), ("DMART.NS", 3500),
   ("TATACONSUM.NS", 850), ("PIDILITE.NS", 2800), ("TATAPOWER.NS", 350),
   ("KPIGREEN.NS", 200), ("SUZLON.NS", 45), ("GENSOL.NS", 150),
   ("HARIOMPIPE.NS", 250), ("ASTRAL.NS", 2200), ("POLYCAB.NS", 4500),
   ("CLEANSCI.NS", 1650), ("DEEPAKNTR.NS", 2650), ("FINEORG.NS", 5200),
   ("GRAVITA.NS", 1450), ("SBILIFE.NS", 1580), ("INFY.NS", 1450),
   ("HAPPSTMNDS.NS", 920), ("EASEMYTRIP.NS", 38)]

/-- Key lookup in an object literal used as a dictionary. -/
def lookupBase : List (String × ℚ) → String → Option ℚ
  | [], _ => none
  | (k, v) :: rest, s => if s = k then some v else lookupBase rest s

/-- Matching of a pattern against the head of a text, character by
character. -/
def prefixMatches : List Char → List Char → Bool
  | [], _ => true
  | _ :: _, [] => false
  | p :: ps, t :: ts => p == t && prefixMatches ps ts

/-- Search of `includesFrom pat text`: does `pat` occur at some position of
`text`? -/
def includesFrom : List Char → List Char → Bool
  | pat, [] => pat.isEmpty
  | pat, t :: ts => prefixMatches pat (t :: ts) || includesFrom pat ts

/-- JavaScript `s.includes(pat)`. -/
def strIncludes (s pat : String) : Bool :=
  includesFrom pat.toList s.toList

/-- JavaScript `Math.round(x * 100) / 100` (round half toward positive
infinity, two decimals). -/
def round2 (x : ℚ) : ℚ := ((⌊x * 100 + 1/2⌋ : ℤ) : ℚ) / 100

/-- JavaScript `Math.round(x * 10) / 10` (one decimal). -/
def round1 (x : ℚ) : ℚ := ((⌊x * 10 + 1/2⌋ : ℤ) : ℚ) / 10

/-- JavaScript `x.toFixed(0)` on the non-negative filler magnitudes. -/
def toFixed0 (x : ℚ) : ℤ := ⌊x + 1/2⌋

/-- Formatted filler currency string of the fallback generator. -/
def inrCrore (x : ℚ) : String := "₹" ++ toString (toFixed0 x) ++ " Cr"

/-- Base price of the fallback generator: `basePrices[symbol] || 1000`. -/
def fbBasePrice (symbol : String) : ℚ := jsNumOr (lookupBase basePrices symbol) 1000

/-- Trend component `(Math.random() - 0.5) * 0.02`; the random source `rng`
is indexed by draw order, the trend being draw 0. -/
def fbTrend (rng : Nat → ℚ) : ℚ := (rng 0 - 1/2) * (2/100)

/-- Noise component `(Math.random() - 0.5) * volatility` with volatility
`0.03`, drawn second. -/
def fbNoise (rng : Nat → ℚ) : ℚ := (rng 1 - 1/2) * (3/100)

/-- Absolute perturbation `basePrice * (trend + randomComponent)`. -/
def fbPriceChange (rng : Nat → ℚ) (symbol : String) : ℚ :=
  fbBasePrice symbol * (fbTrend rng + fbNoise rng)

/-- Perturbed price floored at half the base:
`Math.max(basePrice + priceChange, basePrice * 0.5)`. -/
def fbNewPrice (rng : Nat → ℚ) (symbol : String) : ℚ :=
  max (fbBasePrice symbol + fbPriceChange rng symbol) (fbBasePrice symbol * (1/2))

/-- Sector test of the tech branch:
`symbol.includes('TECH') || symbol.includes('INFY') || symbol.includes('LTIM')`. -/
def fbIsTech (symbol : String) : Bool :=
  strIncludes symbol "TECH" || strIncludes symbol "INFY" || strIncludes symbol "LTIM"

/-- Sector test of the financial branch:
`symbol.includes('BANK') || symbol.includes('FINANCE')`. -/
def fbIsFinancial (symbol : String) : Bool :=
  strIncludes symbol "BANK" || strIncludes symbol "FINANCE"

/-- Final peRatio before rounding.  The source always consumes draw 2 for
the initial `15 + Math.random() * 25` and, when a sector branch fires,
overwrites it with a fresh draw (index 3). -/
def fbPeRatio (rng : Nat → ℚ) (symbol : String) : ℚ :=
  if fbIsTech symbol then 20 + rng 3 * 15
  else if fbIsFinancial symbol then 10 + rng 3 * 15
  else 15 + rng 2 * 25

/-- Index of the next draw after the peRatio computation: 4 when a sector
branch consumed draw 3, else 3. -/
def fbFillerIdx (symbol : String) : Nat :=
  if fbIsTech symbol || fbIsFinancial symbol then 4 else 3

/-- Fallback generator `getFallbackStockData` of the source, deterministic
in the random source `rng` (indexed by draw order) and the clock `now`. -/
def getFallbackStockData (rng : Nat → ℚ) (symbol : String) (now : Nat) :
    SerpApiStockData :=
  { symbol := symbol
    price := round2 (fbNewPrice rng symbol)
    change := round2 (fbNewPrice rng symbol - fbBasePrice symbol)
    changePercent := round2 ((fbNewPrice rng symbol - fbBasePrice symbol) / fbBasePrice symbol * 100)
    peRatio := some (round1 (fbPeRatio rng symbol))
    marketCap := some (inrCrore (rng (fbFillerIdx symbol) * 100000 + 10000))
    earnings := some (inrCrore (rng (fbFillerIdx symbol + 1) * 5000 + 500))
    revenue := some (inrCrore (rng (fbFillerIdx symbol + 2) * 20000 + 2000))
    lastUpdated := now }

/-- Knowledge-graph object with every field absent. -/
def emptyKG : KnowledgeGraph :=
  { price := none, currency := none, change := none, change_percent := none
    market_cap := none, pe_ratio := none, earnings := none, revenue := none }

/-- Response whose detailed shape is present but lacks a price while the
summary shape supplies one. -/
def respC1 : GoogleFinanceResponse :=
  { summary := some { price := some 100, currency := none, change := some 5, change_percent := some 2 }
    knowledge_graph := some emptyKG
    financials := none }

/-- Summary shape carrying a price but no change. -/
def summaryC2 : SummaryShape :=
  { price := some 1800, currency := none, change := none, change_percent := some 2 }

/-- Response whose only shape is `summaryC2`. -/
def respC2 : GoogleFinanceResponse :=
  { summary := some summaryC2, knowledge_graph := none, financials := none }

/-- Concrete quote record used by the cache scenarios. -/
def stockW : SerpApiStockData :=
  { symbol := "INFY.NS", price := 1450, change := 5, changePercent := 1
    peRatio := none, marketCap := none, earnings := none, revenue := none
    lastUpdated := 1000 }

/-- Cache holding `stockW` for "INFY.NS", captured at time 1000. -/
def cacheW : Cache := fun s => if s = "INFY.NS" then some ⟨stockW, 1000⟩ else none

/-- Cache with no entry. -/
def emptyCache : Cache := fun _ => none

/-- Record that normalizing `respC2` at time 2000 produces. -/
def stockC4 : SerpApiStockData :=
  { symbol := "HDFCBANK.NS", price := 1800, change := 0, changePercent := 2
    peRatio := none, marketCap := none, earnings := none, revenue := none
    lastUpdated := 2000 }

/-- Random source whose sector draw (index 3) is close to the top of its
range, the other draws sitting at one half. -/
def rngTop : Nat → ℚ := fun i => if i = 3 then 499/500 else 1/2

/-- Random source drawing 0 every time. -/
def rngZero : Nat → ℚ := fun _ => 0

/-- Two-symbol input used by the pacing scenario. -/
def symsC6 : List String := ["AFFLE.NS", "LTIM.NS"]

/-- C1 counterexample: with the detailed shape present but missing price
and the summary shape supplying price = 100, the normalizer outputs
price = 0, not the summary's 100 — the claimed per-field fallback from the
detailed shape to the summary shape never happens. -/
theorem c1_counterexample :
    (parseGoogleFinanceResponse "HDFCBANK.NS" 0 respC1).map SerpApiStockData.price = some 0 ∧
    ¬ ((parseGoogleFinanceResponse "HDFCBANK.NS" 0 respC1).map SerpApiStockData.price = some 100) := by
  constructor
  · rfl
  · decide

/-- C1 (amended): precedence between the detailed and summary shapes is
resolved at the shape level, not per field.  When the detailed shape is
present, price, change and changePercent are each read from it (absent or
falsy fields defaulting to 0) and the summary shape is ignored entirely;
when the detailed shape is absent, they are read from the summary shape
with the same defaulting. -/
theorem c1_amended (sym : String) (now : Nat) (s : SummaryShape)
    (kg : KnowledgeGraph) (f : Option Financials) :
    (parseGoogleFinanceResponse sym now ⟨some s, some kg, f⟩ =
      parseGoogleFinanceResponse sym now ⟨none, some kg, f⟩) ∧
    ((parseGoogleFinanceResponse sym now ⟨some s, some kg, f⟩).map SerpApiStockData.price
        = some (jsNumOr kg.price 0)) ∧
    ((parseGoogleFinanceResponse sym now ⟨some s, some kg, f⟩).map SerpApiStockData.change
        = some (jsNumOr kg.change 0)) ∧
    ((parseGoogleFinanceResponse sym now ⟨some s, some kg, f⟩).map SerpApiStockData.changePercent
        = some (jsNumOr kg.change_percent 0)) ∧
    ((parseGoogleFinanceResponse sym now ⟨some s, none, f⟩).map SerpApiStockData.price
        = some (jsNumOr s.price 0)) ∧
    ((parseGoogleFinanceResponse sym now ⟨some s, none, f⟩).map SerpApiStockData.change
        = some (jsNumOr s.change 0)) ∧
    ((parseGoogleFinanceResponse sym now ⟨some s, none, f⟩).map SerpApiStockData.changePercent
        = some (jsNumOr s.change_percent 0)) :=
  ⟨rfl, rfl, rfl, rfl, rfl, rfl, rfl⟩

/-- C2: normalization returns null exactly when neither the detailed nor
the summary shape is present (the embedding is a total function, so no
typed input can make it throw), and a present shape with price present but
change absent yields a record with change = 0 rather than a failure. -/
theorem c2_null_iff_no_shape (sym : String) (now : Nat) (resp : GoogleFinanceResponse) :
    (parseGoogleFinanceResponse sym now resp = none ↔
      resp.knowledge_graph = none ∧ resp.summary = none) ∧
    (∀ d, dataOf resp = some d → d.change = none → d.price.isSome = true →
      ∃ rec, parseGoogleFinanceResponse sym now resp = some rec ∧ rec.change = 0) := by
  obtain ⟨s, kg, f⟩ := resp
  constructor
  · cases kg <;> cases s <;>
      simp [parseGoogleFinanceResponse, dataOf]
  · intro d hd hchange _
    refine ⟨{ symbol := sym, price := jsNumOr d.price 0, change := jsNumOr d.change 0
              changePercent := jsNumOr d.change_percent 0
              peRatio := jsOrOptNum (f.bind Financials.pe_ratio) d.pe_ratio
              marketCap := jsOrOptStr (f.bind Financials.market_cap) d.market_cap
              earnings := jsOrOptStr (f.bind Financials.net_income) d.earnings
              revenue := jsOrOptStr (f.bind Financials.revenue) d.revenue
              lastUpdated := now }, ?_, ?_⟩
    · simp only [parseGoogleFinanceResponse, hd]
    · simp [jsNumOr, numTruthy, hchange]

/-- Witness for C2 at a concrete response: the null-iff equivalence holds
at `respC2`, and the normalized record exists with change = 0. -/
theorem c2_null_iff_no_shape_witness :
    (parseGoogleFinanceResponse "HDFCBANK.NS" 7 respC2 = none ↔
      respC2.knowledge_graph = none ∧ respC2.summary = none) ∧
    (∃ rec, parseGoogleFinanceResponse "HDFCBANK.NS" 7 respC2 = some rec ∧ rec.change = 0) :=
  ⟨(c2_null_iff_no_shape "HDFCBANK.NS" 7 respC2).1,
   (c2_null_iff_no_shape "HDFCBANK.NS" 7 respC2).2 (summaryToData summaryC2) rfl rfl rfl⟩

/-- C10: present-but-falsy fields are indistinguishable from absent ones at
every precedence step of the normalizer — a zero numeric field of the
detailed or summary shape behaves as omitted, a zero or empty-string
financials field falls through to the detailed/summary value, and a present
but empty-valued detailed shape still suppresses the summary shape. -/
theorem c10_falsy_is_absent (sym : String) (now : Nat) (s : Option SummaryShape)
    (sm : SummaryShape) (kg : KnowledgeGraph) (ko : Option KnowledgeGraph)
    (f : Financials) (fo : Option Financials) :
    (parseGoogleFinanceResponse sym now ⟨s, some { kg with price := some 0 }, fo⟩ =
      parseGoogleFinanceResponse sym now ⟨s, some { kg with price := none }, fo⟩) ∧
    (parseGoogleFinanceResponse sym now ⟨s, some { kg with change := some 0 }, fo⟩ =
      parseGoogleFinanceResponse sym now ⟨s, some { kg with change := none }, fo⟩) ∧
    (parseGoogleFinanceResponse sym now ⟨s, some { kg with change_percent := some 0 }, fo⟩ =
      parseGoogleFinanceResponse sym now ⟨s, some { kg with change_percent := none }, fo⟩) ∧
    (parseGoogleFinanceResponse sym now ⟨some { sm with price := some 0 }, none, fo⟩ =
      parseGoogleFinanceResponse sym now ⟨some { sm with price := none }, none, fo⟩) ∧
    (parseGoogleFinanceResponse sym now ⟨some { sm with change := some 0 }, none, fo⟩ =
      parseGoogleFinanceResponse sym now ⟨some { sm with change := none }, none, fo⟩) ∧
    (parseGoogleFinanceResponse sym now ⟨some { sm with change_percent := some 0 }, none, fo⟩ =
      parseGoogleFinanceResponse sym now ⟨some { sm with change_percent := none }, none, fo⟩) ∧
    (parseGoogleFinanceResponse sym now ⟨s, ko, some { f with pe_ratio := some 0 }⟩ =
      parseGoogleFinanceResponse sym now ⟨s, ko, some { f with pe_ratio := none }⟩) ∧
    (parseGoogleFinanceResponse sym now ⟨s, ko, some { f with market_cap := some "" }⟩ =
      parseGoogleFinanceResponse sym now ⟨s, ko, some { f with market_cap := none }⟩) ∧
    (parseGoogleFinanceResponse sym now ⟨s, ko, some { f with revenue := some "" }⟩ =
      parseGoogleFinanceResponse sym now ⟨s, ko, some { f with revenue := none }⟩) ∧
    (parseGoogleFinanceResponse sym now ⟨s, ko, some { f with net_income := some "" }⟩ =
      parseGoogleFinanceResponse sym now ⟨s, ko, some { f with net_income := none }⟩) ∧
    (parseGoogleFinanceResponse sym now ⟨some sm, some emptyKG, fo⟩ =
      parseGoogleFinanceResponse sym now ⟨none, some emptyKG, fo⟩) :=
  ⟨rfl, rfl, rfl, rfl, rfl, rfl, rfl, rfl, rfl, rfl, rfl⟩

/-- Every execution of the miss path performs exactly one upstream lookup. -/
theorem fetchFresh_upstreamCalls (c : Cache) (now : Nat)
    (up : Option GoogleFinanceResponse) (symbol : String) :
    (fetchFresh c now up symbol).upstreamCalls = 1 := by
  unfold fetchFresh
  cases up with
  | none => rfl
  | some resp => cases hp : parseGoogleFinanceResponse symbol now resp <;> simp [hp]

/-- Outcome analysis of the miss path: either it fails with the cache
untouched, or it succeeds and writes exactly the fetched symbol. -/
theorem fetchFresh_cases (c : Cache) (now : Nat)
    (up : Option GoogleFinanceResponse) (symbol : String) :
    fetchFresh c now up symbol = { result := none, cache := c, upstreamCalls := 1 } ∨
    ∃ d, fetchFresh c now up symbol =
      { result := some d
        cache := fun s => if s = symbol then some ⟨d, now⟩ else c s
        upstreamCalls := 1 } := by
  unfold fetchFresh
  cases up with
  | none => exact Or.inl rfl
  | some resp =>
      cases hp : parseGoogleFinanceResponse symbol now resp with
      | none =>
          refine Or.inl ?_
          simp [hp]
      | some d =>
          refine Or.inr ⟨d, ?_⟩
          simp [hp]

/-- Result of the miss path is independent of the cache it starts from. -/
theorem fetchFresh_result_eq (c₁ c₂ : Cache) (now : Nat)
    (up : Option GoogleFinanceResponse) (symbol : String) :
    (fetchFresh c₁ now up symbol).result = (fetchFresh c₂ now up symbol).result := by
  unfold fetchFresh
  cases up with
  | none => rfl
  | some resp => cases hp : parseGoogleFinanceResponse symbol now resp <;> simp [hp]

/-- Fresh cache entries are served without touching the miss path. -/
theorem fetchStockData_hit (c : Cache) (now : Nat) (up : Option GoogleFinanceResponse)
    (symbol : String) (e : CacheEntry)
    (hc : c symbol = some e) (hfresh : now - e.timestamp < CACHE_DURATION) :
    fetchStockData c now up symbol =
      { result := some e.data, cache := c, upstreamCalls := 0 } := by
  unfold fetchStockData
  rw [hc]
  simp [hfresh]

/-- Case split of `fetchStockData`: either a fresh hit, or the call runs
the miss path. -/
theorem fetchStockData_cases (c : Cache) (now : Nat)
    (up : Option GoogleFinanceResponse) (symbol : String) :
    (∃ e, c symbol = some e ∧ now - e.timestamp < CACHE_DURATION ∧
      fetchStockData c now up symbol =
        { result := some e.data, cache := c, upstreamCalls := 0 }) ∨
    fetchStockData c now up symbol = fetchFresh c now up symbol := by
  unfold fetchStockData
  cases hc : c symbol with
  | none => exact Or.inr rfl
  | some e =>
      by_cases hfresh : now - e.timestamp < CACHE_DURATION
      · exact Or.inl ⟨e, rfl, hfresh, by simp [hfresh]⟩
      · simp [hfresh]

/-- Failed calls leave the cache exactly as it was. -/
theorem fetch_result_none_cache (c : Cache) (now : Nat)
    (up : Option GoogleFinanceResponse) (symbol : String)
    (h : (fetchStockData c now up symbol).result = none) :
    (fetchStockData c now up symbol).cache = c := by
  rcases fetchStockData_cases c now up symbol with ⟨e, _, _, heq⟩ | heq
  · rw [heq] at h
    simp at h
  · rw [heq] at h ⊢
    rcases fetchFresh_cases c now up symbol with h2 | ⟨d, h2⟩
    · rw [h2]
    · rw [h2] at h
      simp at h

/-- Successful calls that ran the miss path write the fetched record under
the fetched symbol with the current timestamp. -/
theorem fetch_success_writes (c : Cache) (now : Nat)
    (up : Option GoogleFinanceResponse) (symbol : String) (d : SerpApiStockData)
    (hcalls : (fetchStockData c now up symbol).upstreamCalls = 1)
    (hres : (fetchStockData c now up symbol).result = some d) :
    (fetchStockData c now up symbol).cache symbol = some ⟨d, now⟩ := by
  rcases fetchStockData_cases c now up symbol with ⟨e, _, _, heq⟩ | heq
  · rw [heq] at hcalls
    simp at hcalls
  · rw [heq] at hres ⊢
    rcases fetchFresh_cases c now up symbol with h2 | ⟨d', h2⟩
    · rw [h2] at hres
      simp at hres
    · rw [h2] at hres ⊢
      simp_all

/-- Successful calls that ran the miss path leave every other symbol's
entry unchanged. -/
theorem fetch_success_frame (c : Cache) (now : Nat)
    (up : Option GoogleFinanceResponse) (symbol : String)
    (hcalls : (fetchStockData c now up symbol).upstreamCalls = 1) :
    ∀ t, t ≠ symbol → (fetchStockData c now up symbol).cache t = c t := by
  intro t ht
  rcases fetchStockData_cases c now up symbol with ⟨e, _, _, heq⟩ | heq
  · rw [heq] at hcalls
    simp at hcalls
  · rw [heq]
    rcases fetchFresh_cases c now up symbol with h2 | ⟨d', h2⟩
    · rw [h2]
    · rw [h2]
      simp [ht]

/-- Result of a fetch depends on the cache only through the fetched
symbol's entry. -/
theorem fetch_result_congr (c₁ c₂ : Cache) (now : Nat)
    (up : Option GoogleFinanceResponse) (symbol : String)
    (h : c₁ symbol = c₂ symbol) :
    (fetchStockData c₁ now up symbol).result = (fetchStockData c₂ now up symbol).result := by
  unfold fetchStockData
  rw [h]
  cases hc : c₂ symbol with
  | none => exact fetchFresh_result_eq c₁ c₂ now up symbol
  | some e =>
      by_cases hfresh : now - e.timestamp < CACHE_DURATION
      · simp [hfresh]
      · simp [hfresh, fetchFresh_result_eq c₁ c₂ now up symbol]

/-- Stability of success under interleaved fetches at the same instant:
whether a fetch of `symbol` resolves is unchanged by first running a fetch
of any symbol `s` (with `s`'s own oracle) from the same cache. -/
theorem fetch_isSome_stable (c : Cache) (now : Nat)
    (up : String → Option GoogleFinanceResponse) (s symbol : String) :
    ((fetchStockData (fetchStockData c now (up s) s).cache now (up symbol) symbol).result).isSome =
      ((fetchStockData c now (up symbol) symbol).result).isSome := by
  rcases fetchStockData_cases c now (up s) s with ⟨e, _, _, heq⟩ | heq
  · rw [heq]
  · rw [heq]
    rcases fetchFresh_cases c now (up s) s with h2 | ⟨d, h2⟩
    · rw [h2]
    · rw [h2]
      by_cases hss : symbol = s
      · subst hss
        have hhit : fetchStockData
            (fun t => if t = symbol then some ⟨d, now⟩ else c t) now (up symbol) symbol =
            { result := some d
              cache := fun t => if t = symbol then some ⟨d, now⟩ else c t
              upstreamCalls := 0 } := by
          refine fetchStockData_hit _ now (up symbol) symbol ⟨d, now⟩ (by simp) ?_
          simp [CACHE_DURATION]
        rw [hhit, heq, h2]
      · have hkey : (fun t => if t = s then some ⟨d, now⟩ else c t) symbol = c symbol := by
          simp [hss]
        exact congrArg Option.isSome
          (fetch_result_congr (fun t => if t = s then some ⟨d, now⟩ else c t) c
            now (up symbol) symbol hkey)

/-- Membership invariant of the batch driver: a symbol is present in the
final mapping exactly when it was already present or some remaining
occurrence of it resolves from the current cache. -/
theorem fetchMultipleStocksGo_mem (now : Nat) (up : String → Option GoogleFinanceResponse) :
    ∀ (syms : List String) (c : Cache) (results : String → Option SerpApiStockData)
      (symbol : String),
    ((fetchMultipleStocksGo now up c results syms).1 symbol).isSome = true ↔
      ((results symbol).isSome = true ∨
        (symbol ∈ syms ∧ ((fetchStockData c now (up symbol) symbol).result).isSome = true)) := by
  intro syms
  induction syms with
  | nil =>
      intro c results symbol
      simp [fetchMultipleStocksGo]
  | cons s rest ih =>
      intro c results symbol
      unfold fetchMultipleStocksGo
      cases hf : (fetchStockData c now (up s) s).result with
      | some d =>
          rw [ih]
          have hstable := fetch_isSome_stable c now up s symbol
          rw [hstable]
          by_cases hsym : symbol = s
          · subst hsym
            simp [hf]
          · simp [hsym, List.mem_cons]
      | none =>
          rw [ih]
          have hcache : (fetchStockData c now (up s) s).cache = c :=
            fetch_result_none_cache c now (up s) s hf
          rw [hcache]
          by_cases hsym : symbol = s
          · subst hsym
            simp [hf]
          · simp [hsym, List.mem_cons]

/-- C3: for an entry of `symbol` captured at `T`, the strict-TTL read
inside `fetchStockData` serves the cached record with no upstream call for
any `now` with `now - T < 15000`, treats the entry as stale (running the
one upstream lookup) whenever `15000 ≤ now - T`, and the relaxed-TTL read
`getCachedData` — a pure function performing no I/O — serves the record
exactly up to `now - T < 30000`, the relaxed bound being twice the strict
`CACHE_DURATION`. -/
theorem c3_cache_ttl (c : Cache) (symbol : String) (d : SerpApiStockData)
    (T now : Nat) (up : Option GoogleFinanceResponse)
    (hmono : T ≤ now) (hentry : c symbol = some ⟨d, T⟩) :
    (now - T < 15000 →
      fetchStockData c now up symbol =
        { result := some d, cache := c, upstreamCalls := 0 }) ∧
    (15000 ≤ now - T → (fetchStockData c now up symbol).upstreamCalls = 1) ∧
    (getCachedData c now symbol = if now - T < 30000 then some d else none) ∧
    CACHE_DURATION * 2 = 2 * 15000 := by
  refine ⟨?_, ?_, ?_, rfl⟩
  · intro h
    exact fetchStockData_hit c now up symbol ⟨d, T⟩ hentry (by simpa [CACHE_DURATION] using h)
  · intro h
    rcases fetchStockData_cases c now up symbol with ⟨e, hc, hfresh, _⟩ | heq
    · rw [hentry] at hc
      cases hc
      simp [CACHE_DURATION] at hfresh
      omega
    · rw [heq]
      exact fetchFresh_upstreamCalls c now up symbol
  · unfold getCachedData
    rw [hentry]
    rfl

/-- Witness for C3 at a concrete cache: the entry for "INFY.NS" captured at
1000 is served at 10000 by both reads, and the conjunction holds as stated. -/
theorem c3_cache_ttl_witness :
    ((10000 : Nat) - 1000 < 15000 →
      fetchStockData cacheW 10000 none "INFY.NS" =
        { result := some stockW, cache := cacheW, upstreamCalls := 0 }) ∧
    (15000 ≤ (10000 : Nat) - 1000 →
      (fetchStockData cacheW 10000 none "INFY.NS").upstreamCalls = 1) ∧
    (getCachedData cacheW 10000 "INFY.NS" =
      if (10000 : Nat) - 1000 < 30000 then some stockW else none) ∧
    CACHE_DURATION * 2 = 2 * 15000 :=
  c3_cache_ttl cacheW "INFY.NS" stockW 1000 10000 none (by decide) rfl

/-- C9: the cache is written only by a successful miss-path fetch, which
overwrites exactly the fetched symbol with a fresh timestamp — a cache-hit
read (zero upstream calls) and a failed fetch leave the whole cache exactly
as it was (reads never extend freshness, `getCachedData` being a pure
function of the cache), and `clearCache` empties every entry. -/
theorem c9_cache_frame (c : Cache) (now : Nat)
    (up : Option GoogleFinanceResponse) (symbol : String) :
    ((fetchStockData c now up symbol).upstreamCalls = 0 →
      (fetchStockData c now up symbol).cache = c) ∧
    ((fetchStockData c now up symbol).result = none →
      (fetchStockData c now up symbol).cache = c) ∧
    (∀ d, (fetchStockData c now up symbol).result = some d →
      (fetchStockData c now up symbol).upstreamCalls = 1 →
        (fetchStockData c now up symbol).cache symbol = some ⟨d, now⟩ ∧
        ∀ t, t ≠ symbol → (fetchStockData c now up symbol).cache t = c t) ∧
    (∀ t, clearCache c t = none) := by
  refine ⟨?_, fetch_result_none_cache c now up symbol, ?_, fun _ => rfl⟩
  · intro h0
    rcases fetchStockData_cases c now up symbol with ⟨e, _, _, heq⟩ | heq
    · rw [heq]
    · rw [heq] at h0
      rw [fetchFresh_upstreamCalls c now up symbol] at h0
      cases h0
  · intro d hres hcalls
    exact ⟨fetch_success_writes c now up symbol d hcalls hres,
      fetch_success_frame c now up symbol hcalls⟩

/-- Witness for C9 at a concrete scenario: a stale entry plus a failing
lookup leaves the cache untouched. -/
theorem c9_cache_frame_witness :
    (fetchStockData cacheW 100000 none "INFY.NS").result = none ∧
    (fetchStockData cacheW 100000 none "INFY.NS").cache = cacheW :=
  ⟨rfl, (c9_cache_frame cacheW 100000 none "INFY.NS").2.1 rfl⟩

/-- C4 counterexample: a first call at 14000 hits a cache entry captured at
1000 and succeeds, a second call only 2000 units later finds the entry
(still the one captured at 1000) expired and performs an upstream lookup —
the claim that any successful call shields the next 15000 units from
upstream lookups is false. -/
theorem c4_counterexample :
    (fetchStockData cacheW 14000 none "INFY.NS").result = some stockW ∧
    (16000 : Nat) - 14000 < 15000 ∧
    (fetchStockData (fetchStockData cacheW 14000 none "INFY.NS").cache
        16000 none "INFY.NS").upstreamCalls = 1 ∧
    ¬ ((fetchStockData (fetchStockData cacheW 14000 none "INFY.NS").cache
        16000 none "INFY.NS").result = some stockW) := by
  refine ⟨rfl, by decide, rfl, by decide⟩

/-- C4 (amended): if a `fetchStockData` call at `now₁` misses the cache —
performing its single upstream lookup — and succeeds with record `d`, then
a second call at any `now₂` within strictly less than 15000 units of
`now₁` hits the cache: it performs no upstream lookup and returns the same
record with the cache unchanged, the two calls together performing exactly
one upstream lookup. -/
theorem c4_idempotent (c : Cache) (now₁ now₂ : Nat)
    (up₁ up₂ : Option GoogleFinanceResponse) (symbol : String) (d : SerpApiStockData)
    (hcalls : (fetchStockData c now₁ up₁ symbol).upstreamCalls = 1)
    (hres : (fetchStockData c now₁ up₁ symbol).result = some d)
    (hmono : now₁ ≤ now₂) (hwin : now₂ - now₁ < 15000) :
    fetchStockData (fetchStockData c now₁ up₁ symbol).cache now₂ up₂ symbol =
      { result := some d
        cache := (fetchStockData c now₁ up₁ symbol).cache
        upstreamCalls := 0 } ∧
    (fetchStockData c now₁ up₁ symbol).upstreamCalls +
      (fetchStockData (fetchStockData c now₁ up₁ symbol).cache now₂ up₂ symbol).upstreamCalls = 1 := by
  have hw := fetch_success_writes c now₁ up₁ symbol d hcalls hres
  have hhit := fetchStockData_hit (fetchStockData c now₁ up₁ symbol).cache now₂ up₂ symbol
    ⟨d, now₁⟩ hw (by simpa [CACHE_DURATION] using hwin)
  refine ⟨hhit, ?_⟩
  rw [hhit, hcalls]
  rfl

/-- Witness for C4 at a concrete scenario: a miss-path success at 2000
followed by a call at 3000. -/
theorem c4_idempotent_witness :
    (fetchStockData emptyCache 2000 (some respC2) "HDFCBANK.NS").upstreamCalls = 1 ∧
    (fetchStockData emptyCache 2000 (some respC2) "HDFCBANK.NS").result = some stockC4 ∧
    (fetchStockData (fetchStockData emptyCache 2000 (some respC2) "HDFCBANK.NS").cache
        3000 none "HDFCBANK.NS" =
      { result := some stockC4
        cache := (fetchStockData emptyCache 2000 (some respC2) "HDFCBANK.NS").cache
        upstreamCalls := 0 } ∧
    (fetchStockData emptyCache 2000 (some respC2) "HDFCBANK.NS").upstreamCalls +
      (fetchStockData (fetchStockData emptyCache 2000 (some respC2) "HDFCBANK.NS").cache
        3000 none "HDFCBANK.NS").upstreamCalls = 1) :=
  ⟨rfl, rfl,
    c4_idempotent emptyCache 2000 3000 (some respC2) none "HDFCBANK.NS" stockC4
      rfl rfl (by decide) (by decide)⟩

/-- C5: the mapping returned by `fetchMultipleStocks` contains exactly the
input symbols whose individual fetch resolved to a non-null record —
symbols whose lookup failed or normalized to null are simply absent — and
the embedding is total, so no exception can escape `fetchStockData` or
`fetchMultipleStocks` on any lookup or parse failure. -/
theorem c5_result_membership (c : Cache) (now : Nat)
    (up : String → Option GoogleFinanceResponse) (symbols : List String)
    (symbol : String) :
    ((fetchMultipleStocks c now up symbols).1 symbol).isSome = true ↔
      (symbol ∈ symbols ∧
        ((fetchStockData c now (up symbol) symbol).result).isSome = true) := by
  unfold fetchMultipleStocks
  rw [fetchMultipleStocksGo_mem]
  simp

/-- Concatenating the batches restores the input in order. -/
theorem chunk3_join (l : List String) : (chunk3 l).join = l := by
  induction l using chunk3.induct <;> simp [chunk3, *]

/-- Number of batches is the ceiling of N/3. -/
theorem chunk3_length (l : List String) : (chunk3 l).length = (l.length + 2) / 3 := by
  induction l using chunk3.induct with
  | case1 => rfl
  | case2 a b c rest ih =>
      simp only [chunk3, List.length_cons, ih]
      omega
  | case3 l h1 h2 =>
      rcases l with _ | ⟨a, _ | ⟨b, _ | ⟨c, rest⟩⟩⟩
      · cases h1 rfl
      · simp [chunk3]
      · simp [chunk3]
      · exact absurd rfl (h2 a b c rest)

/-- Every batch holds at most 3 symbols and is nonempty. -/
theorem chunk3_batches (l : List String) :
    ∀ b ∈ chunk3 l, b.length ≤ 3 ∧ b ≠ [] := by
  induction l using chunk3.induct with
  | case1 => simp [chunk3]
  | case2 a b c rest ih =>
      intro x hx
      rcases List.mem_cons.mp hx with h | h
      · subst h
        simp
      · exact ih x h
  | case3 l h1 h2 =>
      intro x hx
      rcases l with _ | ⟨a, _ | ⟨b, _ | ⟨c, rest⟩⟩⟩
      · cases h1 rfl
      · simp [chunk3] at hx
        subst hx
        simp
      · simp [chunk3] at hx
        subst hx
        simp
      · exact absurd rfl (h2 a b c rest)

/-- Every nonempty batch takes at least its 300-unit pacing delay. -/
theorem batchElapsed_ge (d : String → Nat) (b : List String) (h : b ≠ []) :
    300 ≤ batchElapsed d b := by
  cases b with
  | nil => cases h rfl
  | cons x xs =>
      simp only [batchElapsed, List.map_cons, List.foldr_cons]
      exact le_trans (by omega) (le_max_left (d x + 300) _)

/-- Sum of the batch times dominates 300 units per batch. -/
theorem sum_batchElapsed_ge (d : String → Nat) :
    ∀ bs : List (List String), (∀ b ∈ bs, b ≠ []) →
      bs.length * 300 ≤ (bs.map (batchElapsed d)).sum := by
  intro bs
  induction bs with
  | nil => simp
  | cons b rest ih =>
      intro h
      simp only [List.map_cons, List.sum_cons, List.length_cons]
      have h1 := batchElapsed_ge d b (h b (by simp))
      have h2 := ih (fun x hx => h x (by simp [hx]))
      omega

/-- C6 counterexample: with two symbols fetched instantaneously the run
takes one batch of 300 elapsed units — the concurrent per-fetch delays
overlap, so the claimed lower bound N×300 + (ceil(N/3)−1)×1000 = 600 is
not reached. -/
theorem c6_counterexample :
    (chunk3 symsC6).length = (symsC6.length + 2) / 3 ∧
    fetchMultipleStocksElapsed (fun _ => 0) symsC6 = 300 ∧
    ¬ (symsC6.length * 300 + ((symsC6.length + 2) / 3 - 1) * 1000 ≤
        fetchMultipleStocksElapsed (fun _ => 0) symsC6) := by
  refine ⟨rfl, rfl, by decide⟩

/-- C6 (amended): `fetchMultipleStocks` partitions the input in order into
ceil(N/3) batches of at most 3, a 300-unit pacing delay follows each fetch
inside its (concurrent) batch, and the 1000-unit delay separates
consecutive batches but does not follow the last; since the per-fetch
delays of one batch overlap, the total elapsed pacing is at least
ceil(N/3)×300 + (ceil(N/3)−1)×1000 time-units. -/
theorem c6_batching (d : String → Nat) (symbols : List String) :
    (chunk3 symbols).join = symbols ∧
    (∀ b ∈ chunk3 symbols, b.length ≤ 3 ∧ b ≠ []) ∧
    (chunk3 symbols).length = (symbols.length + 2) / 3 ∧
    (chunk3 symbols).length * 300 + ((chunk3 symbols).length - 1) * 1000 ≤
      fetchMultipleStocksElapsed d symbols := by
  refine ⟨chunk3_join symbols, chunk3_batches symbols, chunk3_length symbols, ?_⟩
  unfold fetchMultipleStocksElapsed
  have hsum := sum_batchElapsed_ge d (chunk3 symbols)
    (fun b hb => (chunk3_batches symbols b hb).2)
  omega

/-- Witness for C6 (amended) at the two-symbol input with instantaneous
fetches. -/
theorem c6_batching_witness :
    (chunk3 symsC6).join = symsC6 ∧
    (∀ b ∈ chunk3 symsC6, b.length ≤ 3 ∧ b ≠ []) ∧
    (chunk3 symsC6).length = (symsC6.length + 2) / 3 ∧
    (chunk3 symsC6).length * 300 + ((chunk3 symsC6).length - 1) * 1000 ≤
      fetchMultipleStocksElapsed (fun _ => 0) symsC6 :=
  c6_batching (fun _ => 0) symsC6

/-- Two-decimal rounding commutes with subtracting an integer. -/
theorem round2_sub_int (x : ℚ) (z : ℤ) :
    round2 (x - (z : ℚ)) = round2 x - (z : ℚ) := by
  unfold round2
  have h : (x - (z:ℚ)) * 100 + 1/2 = (x * 100 + 1/2) - ((z * 100 : ℤ) : ℚ) := by
    push_cast
    ring
  rw [h, Int.floor_sub_int]
  push_cast
  ring

/-- Two-decimal rounding loses less than half a cent downward. -/
theorem round2_gt (x : ℚ) : x - 1/200 < round2 x := by
  unfold round2
  have h := Int.sub_one_lt_floor (x * 100 + 1/2)
  have h2 : x * 100 - 1/2 < ((⌊x * 100 + 1/2⌋ : ℤ) : ℚ) := by
    push_cast at h ⊢
    linarith
  linarith

/-- One-decimal rounding maps a value of `[a, b)` (integer bounds) into
`[a, b]`. -/
theorem round1_bounds (a b : ℤ) (x : ℚ) (ha : (a : ℚ) ≤ x) (hb : x < (b : ℚ)) :
    (a : ℚ) ≤ round1 x ∧ round1 x ≤ (b : ℚ) := by
  unfold round1
  have hlo : (a * 10 : ℤ) ≤ ⌊x * 10 + 1/2⌋ := by
    rw [Int.le_floor]
    push_cast
    linarith
  have hup : ⌊x * 10 + 1/2⌋ ≤ b * 10 := by
    have hf : ((⌊x * 10 + 1/2⌋ : ℤ) : ℚ) ≤ x * 10 + 1/2 := Int.floor_le _
    have hq : ((⌊x * 10 + 1/2⌋ : ℤ) : ℚ) < ((b * 10 + 1 : ℤ) : ℚ) := by
      push_cast
      push_cast at hf
      linarith
    have hint : ⌊x * 10 + 1/2⌋ < b * 10 + 1 := by
      exact_mod_cast hq
    omega
  constructor
  · have h10 : ((a * 10 : ℤ) : ℚ) ≤ ((⌊x * 10 + 1/2⌋ : ℤ) : ℚ) := by
      exact_mod_cast hlo
    push_cast at h10
    linarith
  · have h10 : ((⌊x * 10 + 1/2⌋ : ℤ) : ℚ) ≤ ((b * 10 : ℤ) : ℚ) := by
      exact_mod_cast hup
    push_cast at h10
    linarith

/-- Value found by the dictionary lookup is one of the table's values. -/
theorem lookupBase_mem : ∀ (l : List (String × ℚ)) (s : String) (q : ℚ),
    lookupBase l s = some q → q ∈ l.map Prod.snd := by
  intro l
  induction l with
  | nil =>
      intro s q h
      cases h
  | cons p rest ih =>
      obtain ⟨k, v⟩ := p
      intro s q h
      simp only [lookupBase] at h
      by_cases hs : s = k
      · rw [if_pos hs] at h
        cases h
        simp
      · rw [if_neg hs] at h
        simp [ih s q h]

/-- Every base price of the static table is a whole number of at least 38. -/
theorem basePrices_vals : ∀ q ∈ basePrices.map Prod.snd, 38 ≤ q ∧ q.den = 1 := by
  decide

/-- Base price of any symbol is a whole number of at least 38 (1000 for
symbols outside the table). -/
theorem fbBasePrice_spec (symbol : String) :
    38 ≤ fbBasePrice symbol ∧ ((fbBasePrice symbol).num : ℚ) = fbBasePrice symbol := by
  cases hl : lookupBase basePrices symbol with
  | none =>
      have hbp : fbBasePrice symbol = 1000 := by
        unfold fbBasePrice jsNumOr
        rw [hl]
        simp [numTruthy]
      rw [hbp]
      refine ⟨by norm_num, ?_⟩
      norm_num
  | some q =>
      have hq := basePrices_vals q (lookupBase_mem basePrices symbol q hl)
      have hq0 : q ≠ 0 := by
        intro h0
        rw [h0] at hq
        norm_num at hq
      have hbp : fbBasePrice symbol = q := by
        unfold fbBasePrice jsNumOr
        rw [hl]
        simp [numTruthy, hq0]
      rw [hbp]
      exact ⟨hq.1, (Rat.den_eq_one_iff q).mp hq.2⟩

/-- C7: for every value of the random source, the fallback record's price
is at least half the base price (static table value, 1000 for symbols
outside the table), change equals price − basePrice exactly (so up to
2-decimal rounding), changePercent is the 2-decimal rounding of the
unrounded change/basePrice×100 (exact, hence within any floating
tolerance), and the unrounded perturbed price is
basePrice×(1 + trend + noise) floored at half the base with trend in
[−1%, 1%] and noise in [−1.5%, 1.5%]. -/
theorem c7_fallback_price (rng : Nat → ℚ) (symbol : String) (now : Nat)
    (h0 : 0 ≤ rng 0) (h0' : rng 0 < 1) (h1 : 0 ≤ rng 1) (h1' : rng 1 < 1) :
    fbBasePrice symbol / 2 ≤ (getFallbackStockData rng symbol now).price ∧
    (getFallbackStockData rng symbol now).change =
      (getFallbackStockData rng symbol now).price - fbBasePrice symbol ∧
    (getFallbackStockData rng symbol now).changePercent =
      round2 ((fbNewPrice rng symbol - fbBasePrice symbol) / fbBasePrice symbol * 100) ∧
    fbNewPrice rng symbol =
      max (fbBasePrice symbol * (1 + (fbTrend rng + fbNoise rng))) (fbBasePrice symbol / 2) ∧
    -(1/100) ≤ fbTrend rng ∧ fbTrend rng ≤ 1/100 ∧
    -(3/200) ≤ fbNoise rng ∧ fbNoise rng ≤ 3/200 := by
  obtain ⟨hbp38, hbpint⟩ := fbBasePrice_spec symbol
  have htl : -(1/100) ≤ fbTrend rng := by
    unfold fbTrend
    linarith
  have htu : fbTrend rng ≤ 1/100 := by
    unfold fbTrend
    linarith
  have hnl : -(3/200) ≤ fbNoise rng := by
    unfold fbNoise
    linarith
  have hnu : fbNoise rng ≤ 3/200 := by
    unfold fbNoise
    linarith
  have hbp0 : (0:ℚ) ≤ fbBasePrice symbol := by linarith
  have hnp : fbBasePrice symbol - fbBasePrice symbol * (1/40) ≤ fbNewPrice rng symbol := by
    have hmul : fbBasePrice symbol * (-(1/40)) ≤
        fbBasePrice symbol * (fbTrend rng + fbNoise rng) :=
      mul_le_mul_of_nonneg_left (by linarith) hbp0
    have hmax := le_max_left
      (fbBasePrice symbol + fbBasePrice symbol * (fbTrend rng + fbNoise rng))
      (fbBasePrice symbol * (1/2))
    unfold fbNewPrice fbPriceChange
    linarith
  refine ⟨?_, ?_, rfl, ?_, htl, htu, hnl, hnu⟩
  · show fbBasePrice symbol / 2 ≤ round2 (fbNewPrice rng symbol)
    have hr := round2_gt (fbNewPrice rng symbol)
    linarith
  · show round2 (fbNewPrice rng symbol - fbBasePrice symbol) =
      round2 (fbNewPrice rng symbol) - fbBasePrice symbol
    calc round2 (fbNewPrice rng symbol - fbBasePrice symbol)
        = round2 (fbNewPrice rng symbol - ((fbBasePrice symbol).num : ℚ)) := by
          rw [hbpint]
      _ = round2 (fbNewPrice rng symbol) - ((fbBasePrice symbol).num : ℚ) :=
          round2_sub_int _ _
      _ = round2 (fbNewPrice rng symbol) - fbBasePrice symbol := by
          rw [hbpint]
  · unfold fbNewPrice fbPriceChange
    rw [show fbBasePrice symbol + fbBasePrice symbol * (fbTrend rng + fbNoise rng)
          = fbBasePrice symbol * (1 + (fbTrend rng + fbNoise rng)) by ring,
        show fbBasePrice symbol * (1/2) = fbBasePrice symbol / 2 by ring]

/-- Witness for C7 at the zero random source and the symbol "INFY.NS". -/
theorem c7_fallback_price_witness :
    ((0:ℚ) ≤ rngZero 0 ∧ rngZero 0 < 1 ∧ (0:ℚ) ≤ rngZero 1 ∧ rngZero 1 < 1) ∧
    (fbBasePrice "INFY.NS" / 2 ≤ (getFallbackStockData rngZero "INFY.NS" 5).price ∧
     (getFallbackStockData rngZero "INFY.NS" 5).change =
       (getFallbackStockData rngZero "INFY.NS" 5).price - fbBasePrice "INFY.NS" ∧
     (getFallbackStockData rngZero "INFY.NS" 5).changePercent =
       round2 ((fbNewPrice rngZero "INFY.NS" - fbBasePrice "INFY.NS") /
         fbBasePrice "INFY.NS" * 100) ∧
     fbNewPrice rngZero "INFY.NS" =
       max (fbBasePrice "INFY.NS" * (1 + (fbTrend rngZero + fbNoise rngZero)))
         (fbBasePrice "INFY.NS" / 2) ∧
     -(1/100) ≤ fbTrend rngZero ∧ fbTrend rngZero ≤ 1/100 ∧
     -(3/200) ≤ fbNoise rngZero ∧ fbNoise rngZero ≤ 3/200) :=
  ⟨⟨by decide, by decide, by decide, by decide⟩,
   c7_fallback_price rngZero "INFY.NS" 5 (by decide) (by decide) (by decide) (by decide)⟩

/-- C8 counterexample: for the tech symbol "INFY.NS" and a sector draw of
499/500 (inside [0, 1)) the unrounded peRatio is 34.97, whose 1-decimal
rounding is 35 — outside the claimed half-open interval [20, 35). -/
theorem c8_counterexample :
    ((0:ℚ) ≤ rngTop 3 ∧ rngTop 3 < 1) ∧
    fbIsTech "INFY.NS" = true ∧
    (getFallbackStockData rngTop "INFY.NS" 0).peRatio = some 35 ∧
    ¬ ((35:ℚ) < 35) := by
  refine ⟨⟨by norm_num [rngTop], by norm_num [rngTop]⟩, rfl, ?_, by norm_num⟩
  have ht : fbIsTech "INFY.NS" = true := rfl
  show some (round1 (fbPeRatio rngTop "INFY.NS")) = some 35
  have hpe : fbPeRatio rngTop "INFY.NS" = 20 + (499/500) * 15 := by
    simp [fbPeRatio, ht, rngTop]
  rw [hpe]
  norm_num [round1]

/-- C8 (amended): the returned peRatio is the 1-decimal rounding of the
sector draw; rounding maps the draw interval `[a, b)` into the closed
interval `[a, b]`, so the rounded value lies in [20, 35] for tech-flagged
symbols, in [10, 25] for other bank/finance-flagged symbols, and in
[15, 40] otherwise. -/
theorem c8_pe_ranges (rng : Nat → ℚ) (symbol : String) (now : Nat)
    (h2 : 0 ≤ rng 2) (h2' : rng 2 < 1) (h3 : 0 ≤ rng 3) (h3' : rng 3 < 1) :
    (getFallbackStockData rng symbol now).peRatio =
      some (round1 (fbPeRatio rng symbol)) ∧
    (fbIsTech symbol = true →
      20 ≤ round1 (fbPeRatio rng symbol) ∧ round1 (fbPeRatio rng symbol) ≤ 35) ∧
    (fbIsTech symbol = false → fbIsFinancial symbol = true →
      10 ≤ round1 (fbPeRatio rng symbol) ∧ round1 (fbPeRatio rng symbol) ≤ 25) ∧
    (fbIsTech symbol = false → fbIsFinancial symbol = false →
      15 ≤ round1 (fbPeRatio rng symbol) ∧ round1 (fbPeRatio rng symbol) ≤ 40) := by
  refine ⟨rfl, ?_, ?_, ?_⟩
  · intro ht
    have hpe : fbPeRatio rng symbol = 20 + rng 3 * 15 := by
      simp [fbPeRatio, ht]
    rw [hpe]
    have hb := round1_bounds 20 35 (20 + rng 3 * 15)
      (by push_cast; linarith) (by push_cast; linarith)
    exact ⟨by exact_mod_cast hb.1, by exact_mod_cast hb.2⟩
  · intro ht hf
    have hpe : fbPeRatio rng symbol = 10 + rng 3 * 15 := by
      simp [fbPeRatio, ht, hf]
    rw [hpe]
    have hb := round1_bounds 10 25 (10 + rng 3 * 15)
      (by push_cast; linarith) (by push_cast; linarith)
    exact ⟨by exact_mod_cast hb.1, by exact_mod_cast hb.2⟩
  · intro ht hf
    have hpe : fbPeRatio rng symbol = 15 + rng 2 * 25 := by
      simp [fbPeRatio, ht, hf]
    rw [hpe]
    have hb := round1_bounds 15 40 (15 + rng 2 * 25)
      (by push_cast; linarith) (by push_cast; linarith)
    exact ⟨by exact_mod_cast hb.1, by exact_mod_cast hb.2⟩

/-- Witness for C8 at the zero random source and the symbol "INFY.NS". -/
theorem c8_pe_ranges_witness :
    ((0:ℚ) ≤ rngZero 2 ∧ rngZero 2 < 1 ∧ (0:ℚ) ≤ rngZero 3 ∧ rngZero 3 < 1) ∧
    ((getFallbackStockData rngZero "INFY.NS" 5).peRatio =
       some (round1 (fbPeRatio rngZero "INFY.NS")) ∧
     (fbIsTech "INFY.NS" = true →
       20 ≤ round1 (fbPeRatio rngZero "INFY.NS") ∧
       round1 (fbPeRatio rngZero "INFY.NS") ≤ 35) ∧
     (fbIsTech "INFY.NS" = false → fbIsFinancial "INFY.NS" = true →
       10 ≤ round1 (fbPeRatio rngZero "INFY.NS") ∧
       round1 (fbPeRatio rngZero "INFY.NS") ≤ 25) ∧
     (fbIsTech "INFY.NS" = false → fbIsFinancial "INFY.NS" = false →
       15 ≤ round1 (fbPeRatio rngZero "INFY.NS") ∧
       round1 (fbPeRatio rngZero "INFY.NS") ≤ 40)) :=
  ⟨⟨by decide, by decide, by decide, by decide⟩,
   c8_pe_ranges rngZero "INFY.NS" 5 (by decide) (by decide) (by decide) (by decide)⟩

end StockDashboard
